import Mathlib

/-!
Verification of the test-saucelabs runner (bitovi/test-saucelabs).

The development shallowly embeds the data model and the operations of the
runner: the pass predicate of the Result Scraper (`allTestsPassed`), the
resolution of the zero-assertions policy (`resolveAllowZeroAssertions`),
the Platform Name Builder and Platform Configuration Merger
(`processPlatform`), the Run Coordinator (`runCoordinator`, `foldOutcomes`,
`exitCode`), the Job Status Poller (`pollSauceLabsStatus`), the Result
Scraper with its stale-element handling (`getElementText`,
`checkTestResults`, `makeTestRun`), and the Keep-Alive Heartbeat as a
transition system (`HeartbeatStep`, `HeartbeatReachable`).

JavaScript values that may be absent (object fields, optional options) are
modelled as `Option`; JavaScript truthiness of strings and optional
booleans is modelled explicitly (`jsTruthyStr`, `jsTruthyOptBool`), since
the source relies on it (empty strings are falsy, `undefined` is falsy).
-/

namespace TestSaucelabs

/-- JavaScript truthiness of a possibly-absent string value: `undefined`
and the empty string are falsy, every other string is truthy. -/
def jsTruthyStr : Option String → Bool
  | none => false
  | some s => s != ""

/-- JavaScript truthiness of a possibly-absent boolean option:
`undefined` is falsy, otherwise the boolean itself. -/
def jsTruthyOptBool : Option Bool → Bool
  | none => false
  | some b => b

/-- Module-level default of the mutable `allowZeroAssertions` variable:
`let allowZeroAssertions = true;`. -/
def allowZeroAssertionsDefault : Bool := true

/-- Resolution of the zero-assertions policy at entry:
`allowZeroAssertions = zeroAssertionsPass === undefined ? allowZeroAssertions : zeroAssertionsPass;`. -/
def resolveAllowZeroAssertions (zeroAssertionsPass : Option Bool) : Bool :=
  match zeroAssertionsPass with
  | none => allowZeroAssertionsDefault
  | some b => b

/-- The pass predicate of `checkTestResults`, on the three scraped counter
strings:
`const allTestsPassed = (passed === total && failed === "0" && (total !== "0" || allowZeroAssertions));`.
JavaScript `===` on two strings is string equality, embedded as `==` on
`String`. -/
def allTestsPassed (passed failed total : String) (allowZeroAssertions : Bool) : Bool :=
  (passed == total) && (failed == "0") && ((total != "0") || allowZeroAssertions)

/-- A Platform Descriptor: the capability keys the source reads or writes,
each possibly absent (`none` models a missing key / `undefined`). -/
structure Platform where
  deviceName : Option String := none
  platform : Option String := none
  platformName : Option String := none
  platformVersion : Option String := none
  browserName : Option String := none
  version : Option String := none
  maxDuration : Option Nat := none
  commandTimeout : Option Nat := none
  idleTimeout : Option Nat := none
  build : Option String := none
  tunnelIdentifier : Option String := none
  name : Option String := none
deriving DecidableEq, Repr

/-- `PLATFORM_DEFAULTS`: fixed run defaults; `build` and
`tunnelIdentifier` come from the environment (`TRAVIS_JOB_ID`,
`TRAVIS_JOB_NUMBER`), passed in as parameters. -/
def PLATFORM_DEFAULTS (buildId tunnelId : Option String) : Platform :=
  { maxDuration := some 1800
    commandTimeout := some 300
    idleTimeout := some 300
    build := buildId
    tunnelIdentifier := tunnelId }

/-- One key of an `Object.assign({}, defaults, platform, ...)` merge: the
caller value wins when the key is present, otherwise the default. -/
def jsAssignField {α : Type} (caller dflt : Option α) : Option α :=
  match caller with
  | some v => some v
  | none => dflt

/-- JavaScript `String.prototype.trim()`: removes leading and trailing
whitespace (modelled directly over the character list so that it
evaluates by kernel reduction). -/
def jsTrim (s : String) : String :=
  String.mk (((s.data.dropWhile Char.isWhitespace).reverse.dropWhile Char.isWhitespace).reverse)

/-- One `+=` step of the name builder:
`platformName += platform.f ? platform.f + " " : "";` — a truthy
(present, non-empty) field contributes itself plus a space, otherwise
nothing. -/
def jsStrPart (field : Option String) : String :=
  match field with
  | some s => if s = "" then "" else s ++ " "
  | none => ""

/-- The accumulated `platformName` string of `processPlatform`, built from
the six display fields in source order, before trimming. -/
def platformNameRaw (p : Platform) : String :=
  jsStrPart p.deviceName ++ jsStrPart p.platform ++ jsStrPart p.platformName ++
    jsStrPart p.platformVersion ++ jsStrPart p.browserName ++ jsStrPart p.version

/-- `processPlatform(testName, platform)`: merges `PLATFORM_DEFAULTS`,
the caller platform and the computed display name
(`testName (platformName.trim())`), the caller fields winning over the
defaults and the computed name winning over everything. -/
def processPlatform (buildId tunnelId : Option String) (testName : String) (p : Platform) :
    Platform :=
  let dflt := PLATFORM_DEFAULTS buildId tunnelId
  { deviceName := jsAssignField p.deviceName dflt.deviceName
    platform := jsAssignField p.platform dflt.platform
    platformName := jsAssignField p.platformName dflt.platformName
    platformVersion := jsAssignField p.platformVersion dflt.platformVersion
    browserName := jsAssignField p.browserName dflt.browserName
    version := jsAssignField p.version dflt.version
    maxDuration := jsAssignField p.maxDuration dflt.maxDuration
    commandTimeout := jsAssignField p.commandTimeout dflt.commandTimeout
    idleTimeout := jsAssignField p.idleTimeout dflt.idleTimeout
    build := jsAssignField p.build dflt.build
    tunnelIdentifier := jsAssignField p.tunnelIdentifier dflt.tunnelIdentifier
    name := some (testName ++ " (" ++ jsTrim (platformNameRaw p) ++ ")") }

/-- Trimming of trailing whitespace only, used to state the Platform Name
Builder claim literally (it speaks of trailing whitespace). -/
def trimTrailing (s : String) : String :=
  String.mk ((s.data.reverse.dropWhile Char.isWhitespace).reverse)

/-- The six display fields of a descriptor, in the fixed source order. -/
def displayFields (p : Platform) : List (Option String) :=
  [p.deviceName, p.platform, p.platformName, p.platformVersion, p.browserName, p.version]

/-- Display name as the Platform Name Builder claim words it, for
comparison with the code: the fields present in the descriptor,
concatenated in the fixed order, each present field followed by a
separator, with trailing whitespace trimmed. -/
def claimDisplayName (p : Platform) : String :=
  trimTrailing
    (((displayFields p).filterMap (fun o => o)).foldr (fun s acc => s ++ " " ++ acc) "")

/-- Keeps a field only when its value is JavaScript-truthy (present and
non-empty). -/
def truthyField : Option String → Option String
  | some s => if s = "" then none else some s
  | none => none

/-- Display name as the amended Platform Name Builder claim words it:
the truthy (present, non-empty) fields, concatenated in the fixed order,
each followed by a separator, the result trimmed of leading and trailing
whitespace. -/
def amendedDisplayName (p : Platform) : String :=
  jsTrim (((displayFields p).filterMap truthyField).foldr (fun s acc => s ++ " " ++ acc) "")

/-- `const DEFAULT_TEST_NAME = "qunit tests";` (single-quoted in the source). -/
def DEFAULT_TEST_NAME : String := "qunit tests"

/-- An element of the `urls` array of the entry configuration:
`{ url, name?, platforms? }`. -/
structure UrlObj where
  url : String
  nameOpt : Option String := none
  platformsOpt : Option (List Platform) := none
deriving Repr

/-- The entry configuration object
`{ urls, platforms, zeroAssertionsPass, runInParallel }` destructured by
`module.exports`. -/
structure Config where
  urls : List UrlObj
  platforms : List Platform
  zeroAssertionsPass : Option Bool := none
  runInParallel : Option Bool := none
deriving Repr

/-- One Per-Platform Runner task as built by the coordinator: the data
`makeTest` closes over (the shared driver aside). -/
structure TestTask where
  url : String
  platform : Platform
deriving DecidableEq, Repr

/-- `const testName = urlObj.name || DEFAULT_TEST_NAME;` — JavaScript
`||` falls through on a falsy (absent or empty) name. -/
def resolveTestName (nameOpt : Option String) : String :=
  match nameOpt with
  | some s => if s = "" then DEFAULT_TEST_NAME else s
  | none => DEFAULT_TEST_NAME

/-- `const urlPlatforms = urlObj.platforms || platforms;` — an absent
per-url platform list falls back to the default list (a present empty
array is truthy in JavaScript and is kept). -/
def resolveUrlPlatforms (platformsOpt : Option (List Platform)) (dflt : List Platform) :
    List Platform :=
  match platformsOpt with
  | some ps => ps
  | none => dflt

/-- The task list built by the two nested `forEach` loops of the entry
function: one task per (url, platform) pair, in iteration order. -/
def buildTests (buildId tunnelId : Option String) (cfg : Config) : List TestTask :=
  (cfg.urls.map fun urlObj =>
    (resolveUrlPlatforms urlObj.platformsOpt cfg.platforms).map fun p =>
      { url := urlObj.url
        platform := processPlatform buildId tunnelId (resolveTestName urlObj.nameOpt) p }).flatten

/-- How the coordinator hands the task list to the async library:
`parallel(tests, complete)` runs all tasks concurrently,
`series(tests, complete)` runs them one after another in list order. -/
inductive ExecutionPlan
  | concurrent (tasks : List TestTask)
  | sequential (tasks : List TestTask)
deriving DecidableEq, Repr

/-- The mode dispatch of the entry function:
`if (runInParallel) { parallel(tests, complete); } else { series(tests, complete); }`. -/
def runCoordinator (buildId tunnelId : Option String) (cfg : Config) : ExecutionPlan :=
  if jsTruthyOptBool cfg.runInParallel then
    ExecutionPlan.concurrent (buildTests buildId tunnelId cfg)
  else
    ExecutionPlan.sequential (buildTests buildId tunnelId cfg)

/-- The global aggregate: `allPlatformsPassed` starts `true` and each
completion runs `allPlatformsPassed = allPlatformsPassed && status;`,
folded here over the statuses in completion order. -/
def foldOutcomes (statuses : List Bool) : Bool :=
  statuses.foldl (fun allPlatformsPassed status => allPlatformsPassed && status) true

/-- `process.exit(allPlatformsPassed ? 0 : 1)`. -/
def exitCode (allPlatformsPassed : Bool) : Nat :=
  if allPlatformsPassed then 0 else 1

/-- What one `account.showJob` callback invocation observes: either the
query itself errs, or it yields a job object whose `error` property may be
absent, empty or a non-empty message. -/
inductive ShowJobOutcome
  | queryError
  | job (errorField : Option String)
deriving DecidableEq, Repr

/-- What one iteration of `pollSauceLabsStatus` does with that
observation. -/
inductive PollAction
  | logAndStop
  | failPlatform
  | tickAndRearm
deriving DecidableEq, Repr

/-- One iteration of `pollSauceLabsStatus`: on a query error it logs and
returns (no new timer is set); on a truthy `job.error` it calls
`testComplete(false)`; otherwise it writes a progress dot and re-arms
itself with `setTimeout`. -/
def pollSauceLabsStatus (outcome : ShowJobOutcome) : PollAction :=
  match outcome with
  | ShowJobOutcome.queryError => PollAction.logAndStop
  | ShowJobOutcome.job e =>
      if jsTruthyStr e then PollAction.failPlatform else PollAction.tickAndRearm

/-- `const MAX_RETRIES = 10;`. -/
def MAX_RETRIES : Nat := 10

/-- Outcome of one `driver.waitForElementsByCssSelector` call: the
element is found, or the wait errs (a navigation failure also surfaces
here, as the wait times out). -/
inductive WaitOutcome
  | found
  | waitError
deriving DecidableEq, Repr

/-- Outcome of one `driver.text(el, ...)` call: a text value, the
recognized `org.openqa.selenium.StaleElementReferenceException` cause, or
any other error. -/
inductive TextOutcome
  | text (s : String)
  | staleElementRef
  | otherError
deriving DecidableEq, Repr

/-- The external responses one counter read can observe: the wait
outcome and, when the element was found, the text-read outcome. -/
structure ReadEnv where
  wait : WaitOutcome
  read : TextOutcome
deriving DecidableEq, Repr

/-- An error value delivered to the final callback of the inner
`series` of three reads: either the `RETRY_ERROR` sentinel object or an
ordinary driver error (the two are distinguished by identity,
`err === RETRY_ERROR`). -/
inductive ResultsErr
  | retryError
  | driverError
deriving DecidableEq, Repr

/-- Where the result of one `getElementText` task goes. A found element
whose text read is stale does NOT err the inner series: the source runs
`return cb(RETRY_ERROR);`, invoking the coordinator-level task callback
`cb` with the sentinel, so the series chain is abandoned. -/
inductive ReadResult
  | value (s : String)
  | seriesError (e : ResultsErr)
  | taskCbRetryError
deriving DecidableEq, Repr

/-- One `getElementText(selector)` task from the unnamed source file:
wait errors and non-stale text errors go to the series callback as
ordinary driver errors; a stale-element text error goes to the task
callback `cb` as `RETRY_ERROR`; a text value goes to the series callback
as a value. -/
def getElementText (env : ReadEnv) : ReadResult :=
  match env.wait with
  | WaitOutcome.waitError => ReadResult.seriesError ResultsErr.driverError
  | WaitOutcome.found =>
      match env.read with
      | TextOutcome.text s => ReadResult.value s
      | TextOutcome.staleElementRef => ReadResult.taskCbRetryError
      | TextOutcome.otherError => ReadResult.seriesError ResultsErr.driverError

/-- What the inner `series` of the three counter reads produces: three
values, an error delivered to its final callback, or abandonment because
`cb(RETRY_ERROR)` already fired. `series` stops at the first non-value. -/
inductive ThreeReadsResult
  | values (passed failed total : String)
  | seriesError (e : ResultsErr)
  | taskCbRetryError
deriving DecidableEq, Repr

/-- The sequential run of the three `getElementText` tasks
(passed, then failed, then total). -/
def runThreeReads (rPassed rFailed rTotal : ReadEnv) : ThreeReadsResult :=
  match getElementText rPassed with
  | ReadResult.taskCbRetryError => ThreeReadsResult.taskCbRetryError
  | ReadResult.seriesError e => ThreeReadsResult.seriesError e
  | ReadResult.value passed =>
      match getElementText rFailed with
      | ReadResult.taskCbRetryError => ThreeReadsResult.taskCbRetryError
      | ReadResult.seriesError e => ThreeReadsResult.seriesError e
      | ReadResult.value failed =>
          match getElementText rTotal with
          | ReadResult.taskCbRetryError => ThreeReadsResult.taskCbRetryError
          | ReadResult.seriesError e => ThreeReadsResult.seriesError e
          | ReadResult.value total => ThreeReadsResult.values passed failed total

/-- What one invocation of `checkTestResults` ends in. `retryBranchCrash`
is the branch `setTImeout(checkTestResults, 2000)`: `setTImeout` is an
undefined identifier, so reaching that branch would throw a
ReferenceError instead of scheduling a re-read. -/
inductive CheckOutcome
  | testCompleteCalled (status : Bool)
  | taskErrored
  | retryBranchCrash
deriving DecidableEq, Repr

/-- The error handler of the final `series` callback of
`checkTestResults`:
`if (err === RETRY_ERROR && retryCount++ < MAX_RETRIES) { ... setTImeout ... return; }`
then `testComplete(false)`. -/
def handleResultsError (retryCount : Nat) (e : ResultsErr) : CheckOutcome :=
  match e with
  | ResultsErr.retryError =>
      if retryCount < MAX_RETRIES then CheckOutcome.retryBranchCrash
      else CheckOutcome.testCompleteCalled false
  | ResultsErr.driverError => CheckOutcome.testCompleteCalled false

/-- One invocation of `checkTestResults` given the three read
environments, the resolved zero-assertions policy and the current global
`retryCount`. -/
def checkTestResults (allowZeroAssertions : Bool) (retryCount : Nat)
    (rPassed rFailed rTotal : ReadEnv) : CheckOutcome :=
  match runThreeReads rPassed rFailed rTotal with
  | ThreeReadsResult.taskCbRetryError => CheckOutcome.taskErrored
  | ThreeReadsResult.seriesError e => handleResultsError retryCount e
  | ThreeReadsResult.values passed failed total =>
      CheckOutcome.testCompleteCalled (allTestsPassed passed failed total allowZeroAssertions)

/-- How the coordinator-level task callback `cb` of one `makeTest` task
is used: `calledOnceOk status` is `testComplete(status)` ending in
`cb(null)`; `calledWithError` is the direct `cb(RETRY_ERROR)` from the
stale-element branch; `crashed` is the unreachable retry branch. -/
inductive TaskCbOutcome
  | calledOnceOk (status : Bool)
  | calledWithError
  | crashed
deriving DecidableEq, Repr

/-- One execution of a `makeTest` task along the Result Scraper path
(the concurrently running job poller is quiescent in this execution: its
`showJob` query has not answered, so it neither completes nor fails the
task). On `driver.init` error the task completes with a `false` outcome;
otherwise the outcome is whatever `checkTestResults` does. -/
def makeTestRun (allowZeroAssertions : Bool) (retryCount : Nat) (initError : Bool)
    (rPassed rFailed rTotal : ReadEnv) : TaskCbOutcome :=
  if initError then TaskCbOutcome.calledOnceOk false
  else
    match checkTestResults allowZeroAssertions retryCount rPassed rFailed rTotal with
    | CheckOutcome.testCompleteCalled status => TaskCbOutcome.calledOnceOk status
    | CheckOutcome.taskErrored => TaskCbOutcome.calledWithError
    | CheckOutcome.retryBranchCrash => TaskCbOutcome.crashed

/-- State of the Keep-Alive Heartbeat machinery of `src/index.js`:
`keepAliveTimeoutId` is the module-level variable (holding the id of the
last scheduled heartbeat timeout, never reset in this file), `pending` the
ids of heartbeat timeouts currently scheduled in the event loop,
`sessionEstablished` whether some `driver.init` has succeeded, and
`nextId` a fresh-id counter (timeout ids are positive, so the variable
holding an id is always truthy). -/
structure HeartbeatState where
  nextId : Nat
  keepAliveTimeoutId : Option Nat
  pending : List Nat
  sessionEstablished : Bool
deriving DecidableEq, Repr

/-- The state before any task starts. -/
def initialHeartbeatState : HeartbeatState :=
  { nextId := 1, keepAliveTimeoutId := none, pending := [], sessionEstablished := false }

/-- The events of `src/index.js` that touch the heartbeat.
`taskStart`: a task body runs `if (!keepAliveTimeoutId) { initKeepAlive(); }`,
which schedules a timeout and stores its id (a task starting while the
variable is truthy changes nothing and is omitted as a no-op).
`heartbeatFire`: a scheduled `initKeepAlive` timeout fires, reschedules
itself and stores the new id.
`initSuccess`: a `driver.init` callback without error runs
`if (keepAliveTimeoutId) { clearTimeout(keepAliveTimeoutId); }`; the
variable is not cleared. Every `driver.init` call is preceded in the same
task body by the `taskStart` check, and the variable is never unset, so
the callback always observes a stored id. An init error does not touch
the heartbeat. -/
inductive HeartbeatStep : HeartbeatState → HeartbeatState → Prop
  | taskStart (s : HeartbeatState) (h : s.keepAliveTimeoutId = none) :
      HeartbeatStep s
        { nextId := s.nextId + 1
          keepAliveTimeoutId := some s.nextId
          pending := s.nextId :: s.pending
          sessionEstablished := s.sessionEstablished }
  | heartbeatFire (s : HeartbeatState) (i : Nat) (h : i ∈ s.pending) :
      HeartbeatStep s
        { nextId := s.nextId + 1
          keepAliveTimeoutId := some s.nextId
          pending := s.nextId :: s.pending.erase i
          sessionEstablished := s.sessionEstablished }
  | initSuccess (s : HeartbeatState) (j : Nat) (h : s.keepAliveTimeoutId = some j) :
      HeartbeatStep s
        { nextId := s.nextId
          keepAliveTimeoutId := s.keepAliveTimeoutId
          pending := s.pending.erase j
          sessionEstablished := true }

/-- States reachable in a run. -/
inductive HeartbeatReachable : HeartbeatState → Prop
  | start : HeartbeatReachable initialHeartbeatState
  | step {s t : HeartbeatState} :
      HeartbeatReachable s → HeartbeatStep s t → HeartbeatReachable t

/-- The inductive invariant of the heartbeat machinery: every pending
heartbeat timeout is the one whose id the variable holds, ids are below
the fresh counter, once a session is established nothing is pending and
the variable is set, and at most one heartbeat timeout is pending. -/
def HeartbeatInv (s : HeartbeatState) : Prop :=
  (∀ i ∈ s.pending, s.keepAliveTimeoutId = some i) ∧
  (∀ i ∈ s.pending, i < s.nextId) ∧
  (∀ j, s.keepAliveTimeoutId = some j → j < s.nextId) ∧
  (s.sessionEstablished = true → s.pending = []) ∧
  s.pending.length ≤ 1 ∧
  (s.sessionEstablished = true → s.keepAliveTimeoutId ≠ none)

/-! Helper lemmas. -/

lemma jsAssignField_none {α : Type} (c : Option α) : jsAssignField c none = c := by
  cases c <;> rfl

lemma jsAssignField_idem {α : Type} (c d : Option α) :
    jsAssignField (jsAssignField c d) d = jsAssignField c d := by
  cases c <;> cases d <;> rfl

/-! Claims. -/

/-- Claim C1: for every triple of scraped counter strings and every
zero-assertions policy setting, the Result Scraper decision is pass iff
`passed` equals `total`, `failed` equals `"0"`, and `total` is not `"0"`
or the zero-assertions policy allows it — with raw string equality
throughout, as the concrete conjunct shows on counters that are
numerically equal but textually different. -/
theorem C1_pass_predicate_string_equality (passed failed total : String) (zeroOk : Bool) :
    (allTestsPassed passed failed total zeroOk = true ↔
      (passed = total ∧ failed = "0" ∧ (total ≠ "0" ∨ zeroOk = true))) ∧
    allTestsPassed "01" "0" "1" true = false := by
  constructor
  · simp [allTestsPassed, and_assoc]
  · decide

/-- Claim C10: an omitted `zeroAssertionsPass` option resolves to the
allowing default, under which a `0 / 0 / 0` scrape is judged a pass, and
an explicitly supplied value replaces the default. -/
theorem C10_zero_assertions_default :
    resolveAllowZeroAssertions none = true ∧
    allTestsPassed "0" "0" "0" (resolveAllowZeroAssertions none) = true ∧
    (∀ b : Bool, resolveAllowZeroAssertions (some b) = b) := by
  decide

/-- Claim C9: the Platform Configuration Merger is idempotent — merging
the output of a merge with the same base name yields the same
descriptor. -/
theorem C9_merge_idempotent (buildId tunnelId : Option String) (testName : String)
    (p : Platform) :
    processPlatform buildId tunnelId testName (processPlatform buildId tunnelId testName p) =
      processPlatform buildId tunnelId testName p := by
  simp [processPlatform, PLATFORM_DEFAULTS, platformNameRaw, jsAssignField_none,
    jsAssignField_idem]

/-- Claim C5: the coordinator executes the task list all-concurrently
exactly when the configuration option `runInParallel` is (truthy) `true`,
and sequentially in list order otherwise; the task list itself does not
depend on that flag, so the mode is selected solely by it. -/
theorem C5_mode_selected_by_runInParallel (buildId tunnelId : Option String) (cfg : Config) :
    (runCoordinator buildId tunnelId cfg =
        ExecutionPlan.concurrent (buildTests buildId tunnelId cfg) ↔
      cfg.runInParallel = some true) ∧
    (runCoordinator buildId tunnelId cfg =
        ExecutionPlan.sequential (buildTests buildId tunnelId cfg) ↔
      cfg.runInParallel ≠ some true) ∧
    (∀ v : Option Bool,
      buildTests buildId tunnelId { cfg with runInParallel := v } =
        buildTests buildId tunnelId cfg) := by
  refine ⟨?_, ?_, fun v => rfl⟩ <;>
    rcases h : cfg.runInParallel with _ | b <;>
      simp [runCoordinator, jsTruthyOptBool, h]

/-- Claim C6 counterexample: on a job-status query failure the poller
does not re-arm — it logs and stops; the claim asserts the query is
re-armed after the polling interval. -/
theorem C6_counterexample :
    pollSauceLabsStatus ShowJobOutcome.queryError ≠ PollAction.tickAndRearm ∧
    pollSauceLabsStatus ShowJobOutcome.queryError = PollAction.logAndStop := by
  decide

/-- Claim C6 as amended: whenever a job-status query itself fails, the
poller logs the error and stops polling (the loop is not re-armed)
without failing the run; only a truthy job-level `error` field produces a
false outcome and stops the polling loop; any other job answer ticks and
re-arms. -/
theorem C6_query_failure_stops_polling (outcome : ShowJobOutcome) :
    (pollSauceLabsStatus outcome = PollAction.failPlatform ↔
      ∃ e, outcome = ShowJobOutcome.job e ∧ jsTruthyStr e = true) ∧
    (pollSauceLabsStatus outcome = PollAction.tickAndRearm ↔
      ∃ e, outcome = ShowJobOutcome.job e ∧ jsTruthyStr e = false) ∧
    pollSauceLabsStatus ShowJobOutcome.queryError = PollAction.logAndStop := by
  rcases outcome with _ | e
  · simp [pollSauceLabsStatus]
  · cases h : jsTruthyStr e <;> simp [pollSauceLabsStatus, h]

/-- No counter read ever delivers the `RETRY_ERROR` sentinel to the
inner series callback: the stale-element branch routes it to the
coordinator-level task callback instead. -/
lemma runThreeReads_retryError_unreachable (rPassed rFailed rTotal : ReadEnv) :
    runThreeReads rPassed rFailed rTotal ≠
      ThreeReadsResult.seriesError ResultsErr.retryError := by
  rcases rPassed with ⟨w1, t1⟩
  rcases rFailed with ⟨w2, t2⟩
  rcases rTotal with ⟨w3, t3⟩
  cases w1 <;> cases t1 <;> cases w2 <;> cases t2 <;> cases w3 <;> cases t3 <;>
    simp [runThreeReads, getElementText]

/-- Claim C3: with a successful init, a found element and a
stale-element fault on the first text read (the job poller quiescent),
the runner task invokes its coordinator callback with the `RETRY_ERROR`
error value — not a non-error completion with a `false` outcome — so a
task error does propagate past the coordinator boundary. -/
theorem C3_stale_fault_errors_task_callback :
    makeTestRun true 0 false
        { wait := WaitOutcome.found, read := TextOutcome.staleElementRef }
        { wait := WaitOutcome.found, read := TextOutcome.text "1" }
        { wait := WaitOutcome.found, read := TextOutcome.text "1" } =
      TaskCbOutcome.calledWithError ∧
    (∀ status : Bool,
      TaskCbOutcome.calledWithError ≠ TaskCbOutcome.calledOnceOk status) := by
  decide

/-- Claim C4: on a stale-element fault with the global retry count at 0
(below the ceiling of 10), `checkTestResults` does not re-execute the
three-read sequence — the task errs instead, because the sentinel never
reaches the handler that would retry; that handler branch itself, were it
ever reached below the ceiling, calls the undefined identifier
`setTImeout` and would crash rather than schedule the re-read. -/
theorem C4_stale_retry_never_scheduled :
    checkTestResults true 0
        { wait := WaitOutcome.found, read := TextOutcome.staleElementRef }
        { wait := WaitOutcome.found, read := TextOutcome.text "1" }
        { wait := WaitOutcome.found, read := TextOutcome.text "1" } =
      CheckOutcome.taskErrored ∧
    0 < MAX_RETRIES ∧
    handleResultsError 0 ResultsErr.retryError = CheckOutcome.retryBranchCrash ∧
    (∀ rPassed rFailed rTotal : ReadEnv,
      runThreeReads rPassed rFailed rTotal ≠
        ThreeReadsResult.seriesError ResultsErr.retryError) := by
  refine ⟨by decide, by decide, by decide, runThreeReads_retryError_unreachable⟩

lemma foldl_and_eq_all (l : List Bool) (a : Bool) :
    l.foldl (fun x y => x && y) a = (a && l.all (fun b => b)) := by
  induction l generalizing a with
  | nil => simp
  | cons x l ih => rw [List.foldl_cons, ih, List.all_cons, ← Bool.and_assoc]

lemma foldOutcomes_eq_all (l : List Bool) : foldOutcomes l = l.all (fun b => b) := by
  unfold foldOutcomes
  rw [foldl_and_eq_all]
  simp

/-- Claim C2: the coordinator aggregate is the logical AND of all
per-platform outcomes, the exit code is 0 iff every platform passed and 1
iff some platform failed, and the aggregate is the same for any two
completion orders of the same outcomes (as the concurrent and the
sequential mode produce). -/
theorem C2_aggregate_is_and_of_outcomes (xs ys : List Bool) (h : xs.Perm ys) :
    foldOutcomes xs = xs.all (fun b => b) ∧
    (exitCode (foldOutcomes xs) = 0 ↔ ∀ b ∈ xs, b = true) ∧
    (exitCode (foldOutcomes xs) = 1 ↔ ∃ b ∈ xs, b = false) ∧
    foldOutcomes xs = foldOutcomes ys := by
  have hexit : ∀ b : Bool, (exitCode b = 0 ↔ b = true) ∧ (exitCode b = 1 ↔ b = false) := by
    decide
  refine ⟨foldOutcomes_eq_all xs, ?_, ?_, ?_⟩
  · rw [foldOutcomes_eq_all xs, (hexit _).1, List.all_eq_true]
  · rw [foldOutcomes_eq_all xs, (hexit _).2, List.all_eq_false]
    simp
  · rw [foldOutcomes_eq_all xs, foldOutcomes_eq_all ys]
    cases hxa : xs.all (fun b => b) <;> cases hya : ys.all (fun b => b) <;> try rfl
    · exfalso
      rw [List.all_eq_true] at hya
      have hxs : xs.all (fun b => b) = true :=
        List.all_eq_true.mpr fun b hb => hya b (h.mem_iff.mp hb)
      rw [hxa] at hxs
      exact Bool.false_ne_true hxs
    · exfalso
      rw [List.all_eq_true] at hxa
      have hys : ys.all (fun b => b) = true :=
        List.all_eq_true.mpr fun b hb => hxa b (h.mem_iff.mpr hb)
      rw [hya] at hys
      exact Bool.false_ne_true hys

/-- Witness for C2 at concrete outcome lists: `[true, false]` and its
reordering `[false, true]`. -/
theorem C2_witness :
    foldOutcomes [true, false] = ([true, false] : List Bool).all (fun b => b) ∧
    (exitCode (foldOutcomes [true, false]) = 0 ↔
      ∀ b ∈ ([true, false] : List Bool), b = true) ∧
    (exitCode (foldOutcomes [true, false]) = 1 ↔
      ∃ b ∈ ([true, false] : List Bool), b = false) ∧
    foldOutcomes [true, false] = foldOutcomes [false, true] :=
  C2_aggregate_is_and_of_outcomes [true, false] [false, true] (List.Perm.swap false true [])

lemma foldr_truthyField_eq (l : List (Option String)) :
    (l.filterMap truthyField).foldr (fun s acc => s ++ " " ++ acc) "" =
      l.foldr (fun o acc => jsStrPart o ++ acc) "" := by
  induction l with
  | nil => rfl
  | cons o l ih =>
      cases o with
      | none => simpa [List.filterMap_cons, truthyField, jsStrPart, String.empty_append] using ih
      | some s =>
          by_cases hs : s = ""
          · simp [List.filterMap_cons, truthyField, jsStrPart, hs, ih, String.empty_append]
          · simp [List.filterMap_cons, truthyField, jsStrPart, hs, ih]

lemma platformNameRaw_eq_foldr (p : Platform) :
    platformNameRaw p = (displayFields p).foldr (fun o acc => jsStrPart o ++ acc) "" := by
  simp [platformNameRaw, displayFields, String.append_assoc, String.append_empty]

/-- Claim C8 counterexample: on the descriptor with `deviceName` present
but empty and `platform` equal to a string with leading whitespace, the
name the claim describes (every present field followed by a separator,
only trailing whitespace trimmed) differs from the name the code
produces (JavaScript truthiness skips the empty field, and `trim`
removes leading whitespace too). -/
theorem C8_counterexample :
    (processPlatform none none "t"
        { deviceName := some "", platform := some " Safari" }).name = some "t (Safari)" ∧
    "t" ++ " (" ++
        claimDisplayName { deviceName := some "", platform := some " Safari" } ++ ")" =
      "t (  Safari)" ∧
    ("t (  Safari)" : String) ≠ "t (Safari)" := by
  refine ⟨rfl, rfl, by decide⟩

/-- Claim C8 as amended: the display name contains exactly the truthy
(present and non-empty) fields of the descriptor, concatenated in the
fixed order deviceName, platform, platformName, platformVersion,
browserName, version, each followed by a separator, with leading and
trailing whitespace trimmed and no placeholder for absent fields,
combined with the base test-suite name. -/
theorem C8_name_builder_amended (buildId tunnelId : Option String) (testName : String)
    (p : Platform) :
    (processPlatform buildId tunnelId testName p).name =
      some (testName ++ " (" ++ amendedDisplayName p ++ ")") := by
  have key : platformNameRaw p =
      ((displayFields p).filterMap truthyField).foldr (fun s acc => s ++ " " ++ acc) "" := by
    rw [foldr_truthyField_eq, platformNameRaw_eq_foldr]
  simp [processPlatform, amendedDisplayName, key]

lemma heartbeatInv_initial : HeartbeatInv initialHeartbeatState := by
  refine ⟨?_, ?_, ?_, ?_, ?_, ?_⟩ <;> simp [initialHeartbeatState]

lemma heartbeatInv_step {s t : HeartbeatState} (hs : HeartbeatInv s) (hstep : HeartbeatStep s t) :
    HeartbeatInv t := by
  obtain ⟨h1, h2, h3, h4, h5, h6⟩ := hs
  cases hstep with
  | taskStart h =>
      have hpend : s.pending = [] := by
        cases hp : s.pending with
        | nil => rfl
        | cons a l =>
            have := h1 a (by rw [hp]; exact List.mem_cons_self a l)
            rw [h] at this
            exact Option.noConfusion this
      have hest : s.sessionEstablished = false := by
        cases he : s.sessionEstablished
        · rfl
        · exact absurd h (h6 he)
      refine ⟨?_, ?_, ?_, ?_, ?_, ?_⟩ <;> simp [hpend, hest]
  | heartbeatFire i h =>
      have hkey : s.keepAliveTimeoutId = some i := h1 i h
      have hpend : s.pending = [i] := by
        cases hp : s.pending with
        | nil => rw [hp] at h; exact absurd h (List.not_mem_nil i)
        | cons a l =>
            have hl : l = [] := by
              have := h5
              rw [hp] at this
              simp only [List.length_cons] at this
              exact List.eq_nil_of_length_eq_zero (Nat.le_zero.mp (Nat.le_of_succ_le_succ this))
            subst hl
            rw [hp] at h
            rcases List.mem_singleton.mp h with rfl
            rfl
      have hest : s.sessionEstablished = false := by
        cases he : s.sessionEstablished
        · rfl
        · rw [h4 he] at h; exact absurd h (List.not_mem_nil i)
      refine ⟨?_, ?_, ?_, ?_, ?_, ?_⟩ <;> simp [hpend, hest]
  | initSuccess j h =>
      have hpe : s.pending.erase j = [] := by
        cases hp : s.pending with
        | nil => rfl
        | cons a l =>
            have ha : a = j := by
              have := h1 a (by rw [hp]; exact List.mem_cons_self a l)
              rw [h] at this
              exact (Option.some.injEq _ _ ▸ this).symm
            have hl : l = [] := by
              have := h5
              rw [hp] at this
              simp only [List.length_cons] at this
              exact List.eq_nil_of_length_eq_zero (Nat.le_zero.mp (Nat.le_of_succ_le_succ this))
            subst ha; subst hl
            simp
      refine ⟨?_, ?_, ?_, ?_, ?_, ?_⟩ <;> simp [hpe, h3, h]

lemma heartbeatInv_reachable {s : HeartbeatState} (h : HeartbeatReachable s) :
    HeartbeatInv s := by
  induction h with
  | start => exact heartbeatInv_initial
  | step hr hst ih => exact heartbeatInv_step ih hst

/-- Claim C7: in every reachable state of a run, once some remote
session has been successfully established no Keep-Alive Heartbeat
timeout remains scheduled, and at any moment at most one heartbeat
timeout is pending process-wide. -/
theorem C7_heartbeat_single_and_stopped (s : HeartbeatState) (h : HeartbeatReachable s) :
    (s.sessionEstablished = true → s.pending = []) ∧ s.pending.length ≤ 1 :=
  ⟨(heartbeatInv_reachable h).2.2.2.1, (heartbeatInv_reachable h).2.2.2.2.1⟩

/-- Witness for C7 at the concrete state reached by one task start
followed by one successful init. -/
theorem C7_witness :
    (({ nextId := 2, keepAliveTimeoutId := some 1, pending := [],
          sessionEstablished := true } : HeartbeatState).sessionEstablished = true →
      ({ nextId := 2, keepAliveTimeoutId := some 1, pending := [],
          sessionEstablished := true } : HeartbeatState).pending = []) ∧
    ({ nextId := 2, keepAliveTimeoutId := some 1, pending := [],
        sessionEstablished := true } : HeartbeatState).pending.length ≤ 1 :=
  C7_heartbeat_single_and_stopped _
    (HeartbeatReachable.step
      (HeartbeatReachable.step HeartbeatReachable.start
        (HeartbeatStep.taskStart initialHeartbeatState rfl))
      (HeartbeatStep.initSuccess _ 1 rfl))

end TestSaucelabs
